import Mathlib

/-!
Shallow embedding of `scripts/viking.py`, the OpenViking CLI wrapper.

Modelling conventions:

* Every Python `print(x)` appends the payload string `x` to `stdout` (or
  `stderr` for `print(..., file=sys.stderr)`); the trailing newline added by
  `print` itself is not stored, while newlines embedded in the payload (as in
  `print(f"\n⏳ ...")`) are kept.
* The external `openviking` client is an oracle: each handler takes the
  responses the client would give, and the calls actually issued are recorded
  in an `Event` trace (`constructClient` for `ov.SyncOpenViking(path=data_dir)`,
  `initClient` for `client.initialize()`, `closeCall` for `client.close()`, …).
* A Python call that may raise is modelled by `CallResult`; `sys.exit(n)` and
  an uncaught exception are the `exited n` / `raised` terminations of a `Run`.
  A `normal` termination means the handler returned, after which `main`
  returns and the process exits with status 0.
* Python strings are Lean `String`s (sequences of code points, as in
  Python 3); `str.strip()` is modelled with `Char.isWhitespace`, which covers
  the ASCII whitespace relevant here.
* `glob.glob(search_path, recursive=True)` is an oracle input
  (`globMatches`), since its value depends only on the file system.
-/

namespace Viking

/-- Outcome of a single client call that may raise a Python exception. -/
inductive CallResult (α : Type) where
  | raises
  | returns (a : α)
deriving DecidableEq

/-- Trace of the calls a handler issues against the external client. -/
inductive Event where
  | constructClient
  | initClient
  | addResourceCall (path : String)
  | waitProcessedCall
  | findCall (query : String)
  | readCall (uri : String)
  | lsCall (uri : String)
  | abstractCall (uri : String)
  | overviewCall (uri : String)
  | closeCall
deriving DecidableEq

/-- How a handler invocation ends: normal return (process then exits 0),
`sys.exit code`, or an uncaught exception propagating out. -/
inductive ProcTerm where
  | normal
  | exited (code : Nat)
  | raised
deriving DecidableEq

/-- Observable result of one handler invocation. -/
structure Run where
  stdout : List String
  stderr : List String
  events : List Event
  term : ProcTerm
deriving DecidableEq

/-- Process environment and file system, as the script observes them. -/
structure Env where
  /-- whether `import openviking` succeeds -/
  openvikingInstalled : Bool
  /-- `os.environ.get("OPENVIKING_CONFIG_FILE")`; `some v` when the variable
  is set (possibly to the empty string), `none` when unset -/
  configVar : Option String
  /-- the user's home directory, used by `os.path.expanduser` -/
  home : String
  /-- `os.path.exists` -/
  pathExists : String → Bool
  /-- `os.path.abspath` -/
  abspath : String → String

/-- Python `s.startswith(pre)`: prefix test on the code points of `s`. -/
def pyStartsWith (s pre : String) : Bool := pre.data.isPrefixOf s.data

/-- Python truthiness of an optional string: `None` and `""` are falsy. -/
def pyTruthyStr : Option String → Bool
  | none => false
  | some s => s ≠ ""

/-- Python `repr` of a bool as printed by an f-string. -/
def pyBoolStr (b : Bool) : String := if b then "True" else "False"

/-- The configuration path the spec prescribes: the value of
`OPENVIKING_CONFIG_FILE` when set, otherwise `~/.openviking/ov.conf`
expanded under the user's home directory. -/
def configPathSpec (env : Env) : String :=
  env.configVar.getD (env.home ++ "/.openviking/ov.conf")

/-- Outcome of `get_client`. -/
inductive GetClientOutcome where
  | exited (code : Nat)
  | raisedInit
  | ok
deriving DecidableEq

/-- What `get_client` did: diagnostics, client events, and how it ended. -/
structure GetClientRun where
  stderr : List String
  events : List Event
  outcome : GetClientOutcome
deriving DecidableEq

/-- `get_client(data_dir)` (viking.py lines 21–37): check the import, resolve
and check the configuration file, construct `ov.SyncOpenViking(path=data_dir)`
and call `client.initialize()`. `initRaises` models `client.initialize()`
raising; in that case the constructed client escapes without being closed. -/
def get_client (env : Env) (data_dir : String) (initRaises : Bool) : GetClientRun :=
  if ¬ env.openvikingInstalled then
    { stderr := ["ERROR: openviking not installed. Run: pip install openviking"]
      events := []
      outcome := .exited 1 }
  else
    let config_file :=
      match env.configVar with
      | some v => v
      | none => env.home ++ "/.openviking/ov.conf"
    if ¬ env.pathExists config_file then
      { stderr := ["ERROR: Config not found at " ++ config_file,
                   "Create ~/.openviking/ov.conf or set OPENVIKING_CONFIG_FILE"]
        events := []
        outcome := .exited 1 }
    else if initRaises then
      { stderr := [], events := [.constructClient, .initClient], outcome := .raisedInit }
    else
      { stderr := [], events := [.constructClient, .initClient], outcome := .ok }

/-- The body of a handler's `try:` block: what it prints, which client calls
it makes, and whether it raised. -/
structure Body where
  stdout : List String
  events : List Event
  raised : Bool

/-- Assemble a handler: `client = get_client(...)` followed by
`try: body finally: client.close()`. When acquisition exits or raises, the
body never runs and no close happens; otherwise `close` always runs last. -/
def runHandler (g : GetClientRun) (body : Body) : Run :=
  match g.outcome with
  | .exited code => { stdout := [], stderr := g.stderr, events := g.events, term := .exited code }
  | .raisedInit => { stdout := [], stderr := g.stderr, events := g.events, term := .raised }
  | .ok =>
      { stdout := body.stdout
        stderr := g.stderr
        events := g.events ++ body.events ++ [Event.closeCall]
        term := if body.raised then ProcTerm.raised else ProcTerm.normal }

/-! ### `add` (lines 40–60) -/

/-- The structured result of `client.add_resource`, a dict read with
`.get` and defaults. -/
structure AddResult where
  status : Option String
  errors : Option (List String)
  root_uri : Option String
deriving DecidableEq

/-- Client responses used by `cmd_add`. -/
structure AddOracle where
  addRes : String → CallResult AddResult
  waitRes : CallResult Unit

/-- The `try:` block of `cmd_add` (lines 43–58). -/
def addBody (o : AddOracle) (file_path : String) : Body :=
  match o.addRes file_path with
  | .raises => { stdout := [], events := [.addResourceCall file_path], raised := true }
  | .returns result =>
    let status := result.status.getD "unknown"
    let errors := result.errors.getD []
    let root_uri := result.root_uri.getD ""
    if status = "success" then
      let pre := ["✅ Added: " ++ file_path,
                  "   URI: " ++ root_uri,
                  "⏳ Processing embeddings and summaries..."]
      match o.waitRes with
      | .raises =>
          { stdout := pre, events := [.addResourceCall file_path, .waitProcessedCall], raised := true }
      | .returns _ =>
          { stdout := pre ++ ["✅ Processing complete."]
            events := [.addResourceCall file_path, .waitProcessedCall]
            raised := false }
    else
      { stdout := ("❌ Failed: " ++ file_path) :: errors.map (fun e => "   Error: " ++ e)
        events := [.addResourceCall file_path]
        raised := false }

/-- `cmd_add` (lines 40–60). -/
def cmd_add (env : Env) (initRaises : Bool) (o : AddOracle)
    (file_path data_dir : String) : Run :=
  runHandler (get_client env data_dir initRaises) (addBody o file_path)

/-! ### `add-dir` (lines 63–95) -/

/-- `sorted(...)` on a list of paths: Python's ascending lexicographic sort. -/
def sortStrings (l : List String) : List String := l.mergeSort

/-- One iteration of the `for f in files` loop (lines 78–89): the line
printed for `f` and whether it counted as a success. -/
def addDirEntry (addRes : String → AddResult) (f : String) : String × Bool :=
  let result := addRes f
  let status := result.status.getD "unknown"
  let errors := result.errors.getD []
  if status = "success" then
    ("  ✅ " ++ f, true)
  else
    ("  ❌ " ++ f ++ ": " ++ errors.headD "unknown error", false)

/-- The whole loop: lines printed, success count, failure count. -/
def addDirLoop (addRes : String → AddResult) : List String → List String × Nat × Nat
  | [] => ([], 0, 0)
  | f :: fs =>
    let e := addDirEntry addRes f
    let rest := addDirLoop addRes fs
    (e.1 :: rest.1,
     (if e.2 then rest.2.1 + 1 else rest.2.1),
     (if e.2 then rest.2.2 else rest.2.2 + 1))

/-- The `try:` block of `cmd_add_dir` (lines 74–93): loop over the files,
then one `wait_processed`, then the summary line. -/
def addDirBody (addRes : String → AddResult) (files : List String) : Body :=
  let r := addDirLoop addRes files
  { stdout := r.1 ++ ["\n⏳ Processing " ++ toString r.2.1 ++ " files...",
                      "✅ Done. Success: " ++ toString r.2.1 ++ ", Failed: " ++ toString r.2.2]
    events := files.map Event.addResourceCall ++ [.waitProcessedCall]
    raised := false }

/-- `cmd_add_dir` (lines 63–95). `patternArg` is `args.pattern`
(`args.pattern or "*.md"` makes an empty pattern fall back to the default);
`globMatches` is what `glob.glob(search_path, recursive=True)` returned. -/
def cmd_add_dir (env : Env) (initRaises : Bool) (addRes : String → AddResult)
    (dir_path patternArg data_dir : String) (globMatches : List String) : Run :=
  let pattern := if patternArg = "" then "*.md" else patternArg
  let files := sortStrings globMatches
  if files.isEmpty then
    { stdout := ["No files matching '" ++ pattern ++ "' found in " ++ dir_path]
      stderr := []
      events := []
      term := .normal }
  else
    runHandler (get_client env data_dir initRaises) (addDirBody addRes files)

/-! ### `search` (lines 98–122) -/

/-- One element of `results.resources`: a URI and a relevance score.
`scoreStr` is the rendering `f"{r.score:.4f}"` of the floating-point score,
abstracted as a string since no claim depends on the numeric value. -/
structure SearchResource where
  uri : String
  scoreStr : String
deriving DecidableEq

/-- `client.read(uri)` in the preview block: it may raise, return `None`, or
return a string. -/
inductive ReadResult where
  | raises
  | returns (content : Option String)
deriving DecidableEq

/-- Client responses used by `cmd_search`: the resources found for the query,
and the content returned for each preview read. -/
structure SearchOracle where
  resources : List SearchResource
  readContent : String → ReadResult

/-- `content[:150]` then `.replace("\n", " ")` then `.strip()`, on the code
points of the content (line 116): truncate to 150 code points, replace each
newline by a space, strip leading and trailing whitespace. -/
def previewChars (l : List Char) : List Char :=
  ((((l.take 150).map (fun ch => if ch = '\n' then ' ' else ch)).dropWhile
      Char.isWhitespace).reverse.dropWhile Char.isWhitespace).reverse

/-- The preview string printed for a result whose content was fetched. -/
def previewOf (content : String) : String := String.mk (previewChars content.data)

/-- The lines printed for the `i`-th result (1-based), lines 110–120: URI,
score, a best-effort preview (silently skipped if `client.read` raises or the
content is falsy), and the trailing blank `print()`. -/
def searchEntryLines (readContent : String → ReadResult) (i : Nat) (r : SearchResource) :
    List String :=
  ["  " ++ toString i ++ ". " ++ r.uri,
   "     Score: " ++ r.scoreStr] ++
  (match readContent r.uri with
   | .raises => []
   | .returns none => []
   | .returns (some content) =>
     if content = "" then [] else ["     Preview: " ++ previewOf content ++ "..."]) ++
  [""]

/-- `for i, r in enumerate(results.resources, 1)` starting at index `i`. -/
def searchLoop (readContent : String → ReadResult) (i : Nat) :
    List SearchResource → List String
  | [] => []
  | r :: rs => searchEntryLines readContent i r ++ searchLoop readContent (i + 1) rs

/-- The `try:` block of `cmd_search` (lines 101–120). `limit` is forwarded to
`client.find` and only shapes the oracle's `resources`. -/
def searchBody (o : SearchOracle) (query : String) (limit : Int) : Body :=
  if o.resources.isEmpty then
    { stdout := ["No results for '" ++ query ++ "'"]
      events := [.findCall query]
      raised := false }
  else
    { stdout := ("🔍 Results for '" ++ query ++ "':\n") :: searchLoop o.readContent 1 o.resources
      events := .findCall query :: o.resources.map (fun r => .readCall r.uri)
      raised := false }

/-- `cmd_search` (lines 98–122). -/
def cmd_search (env : Env) (initRaises : Bool) (o : SearchOracle)
    (query : String) (limit : Int) (data_dir : String) : Run :=
  runHandler (get_client env data_dir initRaises) (searchBody o query limit)

/-! ### `ls` (lines 125–151) -/

/-- One entry of `client.ls(uri)`: a dict read with `.get` and defaults. -/
structure LsEntry where
  name : Option String
  isDir : Option Bool
  size : Option Nat
  uri : Option String
deriving DecidableEq

/-- The lines printed for one listing entry (lines 137–149): hidden entries
(name starting with `.`) are skipped; visible ones get an icon line (size
shown for files only) and a URI line. -/
def lsEntryLines (entry : LsEntry) : List String :=
  let name := entry.name.getD "?"
  let is_dir := entry.isDir.getD false
  let size := entry.size.getD 0
  let entry_uri := entry.uri.getD ""
  if pyStartsWith name "." then
    []
  else
    let icon := if is_dir then "📁" else "📄"
    let size_str := if ¬ is_dir then " (" ++ toString size ++ "B)" else ""
    ["  " ++ icon ++ " " ++ name ++ size_str,
     "     " ++ entry_uri]

/-- The `try:` block of `cmd_ls` (lines 129–149). -/
def lsBody (entries : List LsEntry) (uri : String) : Body :=
  if entries.isEmpty then
    { stdout := ["Empty: " ++ uri], events := [.lsCall uri], raised := false }
  else
    { stdout := ("📁 " ++ uri ++ "\n") :: entries.flatMap lsEntryLines
      events := [.lsCall uri]
      raised := false }

/-- `cmd_ls` (lines 125–151). `uriArg` is `args.uri` (already defaulted by
argparse; `args.uri or "viking://resources"` additionally catches `""`), and
`lsResult` is the client's listing for the resolved URI. -/
def cmd_ls (env : Env) (initRaises : Bool) (lsResult : String → List LsEntry)
    (uriArg data_dir : String) : Run :=
  let uri := if uriArg = "" then "viking://resources" else uriArg
  runHandler (get_client env data_dir initRaises) (lsBody (lsResult uri) uri)

/-! ### `abstract` / `overview` / `read` (lines 154–192) -/

/-- The `try:` block of `cmd_abstract` (lines 157–163): `if result:` is
Python truthiness, so `None` and `""` both take the "not available" branch. -/
def abstractBody (result : Option String) (uri : String) : Body :=
  if pyTruthyStr result then
    { stdout := ["📝 Abstract for " ++ uri ++ ":\n", result.getD ""]
      events := [.abstractCall uri]
      raised := false }
  else
    { stdout := ["No abstract available for " ++ uri]
      events := [.abstractCall uri]
      raised := false }

/-- `cmd_abstract` (lines 154–165). -/
def cmd_abstract (env : Env) (initRaises : Bool) (abstractResult : String → Option String)
    (uri data_dir : String) : Run :=
  runHandler (get_client env data_dir initRaises) (abstractBody (abstractResult uri) uri)

/-- The `try:` block of `cmd_overview` (lines 171–177). -/
def overviewBody (result : Option String) (uri : String) : Body :=
  if pyTruthyStr result then
    { stdout := ["📖 Overview for " ++ uri ++ ":\n", result.getD ""]
      events := [.overviewCall uri]
      raised := false }
  else
    { stdout := ["No overview available for " ++ uri]
      events := [.overviewCall uri]
      raised := false }

/-- `cmd_overview` (lines 168–179). -/
def cmd_overview (env : Env) (initRaises : Bool) (overviewResult : String → Option String)
    (uri data_dir : String) : Run :=
  runHandler (get_client env data_dir initRaises) (overviewBody (overviewResult uri) uri)

/-- The `try:` block of `cmd_read` (lines 185–190). -/
def readBody (result : Option String) (uri : String) : Body :=
  if pyTruthyStr result then
    { stdout := [result.getD ""], events := [.readCall uri], raised := false }
  else
    { stdout := ["No content at " ++ uri], events := [.readCall uri], raised := false }

/-- `cmd_read` (lines 182–192). -/
def cmd_read (env : Env) (initRaises : Bool) (readResult : String → Option String)
    (uri data_dir : String) : Run :=
  runHandler (get_client env data_dir initRaises) (readBody (readResult uri) uri)

/-! ### `info` (lines 195–225) -/

/-- The configuration fields `cmd_info` displays, each `none` when the JSON
path is absent (dict `.get` chains with `{}` defaults collapse to this).
Values are kept as their printed renderings. -/
structure InfoCfg where
  dense_model : Option String
  dense_dimension : Option String
  dense_api_base : Option String
  vlm_model : Option String
deriving DecidableEq

/-- Outcome of opening and `json.load`-ing the configuration file. -/
inductive ParseOutcome where
  | raisesMsg (msg : String)
  | ok (cfg : InfoCfg)
deriving DecidableEq

/-- Outcome of `import openviking` / `ov.__version__` in the connectivity
check. -/
inductive VersionOutcome where
  | importError
  | versionAttr (v : String)
  | attrError
deriving DecidableEq

/-- External observations `cmd_info` draws on. -/
structure InfoOracle where
  parse : ParseOutcome
  version : VersionOutcome

/-- `cmd_info` (lines 195–225): pure introspection, no client. -/
def cmd_info (env : Env) (o : InfoOracle) (data_dir : String) : Run :=
  let config_file :=
    match env.configVar with
    | some v => v
    | none => env.home ++ "/.openviking/ov.conf"
  let head := ["OpenViking Status\n",
               "  Config: " ++ config_file,
               "  Config exists: " ++ pyBoolStr (env.pathExists config_file),
               "  Data dir: " ++ env.abspath data_dir,
               "  Data exists: " ++ pyBoolStr (env.pathExists data_dir)]
  let cfgBlock :=
    if env.pathExists config_file then
      match o.parse with
      | .raisesMsg m => ["\n  Config parse error: " ++ m]
      | .ok cfg =>
          ["\n  Embedding model: " ++ cfg.dense_model.getD "not set",
           "  Embedding dim: " ++ cfg.dense_dimension.getD "auto",
           "  VLM model: " ++ cfg.vlm_model.getD "not set",
           "  API base: " ++ cfg.dense_api_base.getD "not set"]
    else []
  let verBlock :=
    match o.version with
    | .importError => ["\n  ❌ openviking not installed"]
    | .versionAttr v => ["\n  openviking version: " ++ v]
    | .attrError => ["\n  openviking installed (version unknown)"]
  { stdout := head ++ cfgBlock ++ verBlock, stderr := [], events := [], term := .normal }

/-! ### Helper lemmas -/

/-- `get_client` written with the resolved configuration path factored out. -/
theorem get_client_eq (env : Env) (data_dir : String) (initRaises : Bool) :
    get_client env data_dir initRaises =
      if ¬ env.openvikingInstalled then
        { stderr := ["ERROR: openviking not installed. Run: pip install openviking"]
          events := []
          outcome := .exited 1 }
      else if ¬ env.pathExists (configPathSpec env) then
        { stderr := ["ERROR: Config not found at " ++ configPathSpec env,
                     "Create ~/.openviking/ov.conf or set OPENVIKING_CONFIG_FILE"]
          events := []
          outcome := .exited 1 }
      else if initRaises then
        { stderr := [], events := [.constructClient, .initClient], outcome := .raisedInit }
      else
        { stderr := [], events := [.constructClient, .initClient], outcome := .ok } := by
  unfold get_client configPathSpec
  cases env.configVar <;> rfl

/-- Acquisition succeeds exactly when the import works, the configuration
file exists, and `initialize` does not raise. -/
theorem get_client_ok_iff (env : Env) (data_dir : String) (initRaises : Bool) :
    (get_client env data_dir initRaises).outcome = .ok ↔
      env.openvikingInstalled = true ∧
      env.pathExists (configPathSpec env) = true ∧ initRaises = false := by
  rw [get_client_eq]
  by_cases h1 : env.openvikingInstalled <;>
    by_cases h2 : env.pathExists (configPathSpec env) <;>
      cases initRaises <;> simp [h1, h2]

/-- When acquisition succeeded, a handler's trace is acquisition events, then
body events, then the final `close`. -/
theorem runHandler_events_of_ok (g : GetClientRun) (body : Body) (h : g.outcome = .ok) :
    (runHandler g body).events = g.events ++ body.events ++ [Event.closeCall] := by
  unfold runHandler
  rw [h]

/-- When acquisition succeeded, a handler's stdout is the body's stdout. -/
theorem runHandler_stdout_of_ok (g : GetClientRun) (body : Body) (h : g.outcome = .ok) :
    (runHandler g body).stdout = body.stdout := by
  unfold runHandler
  rw [h]

/-- When acquisition succeeded, a handler's stderr is the acquisition's
stderr and its termination is decided by whether the body raised. -/
theorem runHandler_stderr_term_of_ok (g : GetClientRun) (body : Body) (h : g.outcome = .ok) :
    (runHandler g body).stderr = g.stderr ∧
    (runHandler g body).term = (if body.raised then ProcTerm.raised else ProcTerm.normal) := by
  unfold runHandler
  rw [h]
  exact ⟨rfl, rfl⟩

/-- Acquisition succeeding leaves empty stderr and exactly the
construct/initialize events. -/
theorem get_client_ok_shape (env : Env) (data_dir : String) (initRaises : Bool)
    (h : (get_client env data_dir initRaises).outcome = .ok) :
    (get_client env data_dir initRaises).stderr = [] ∧
    (get_client env data_dir initRaises).events = [Event.constructClient, Event.initClient] := by
  obtain ⟨h1, h2, h3⟩ := (get_client_ok_iff env data_dir initRaises).mp h
  rw [get_client_eq]
  simp [h1, h2, h3]

/-- With the configuration file missing, any handler built from `get_client`
exits with status 1, prints to stderr, and never constructs a client. -/
theorem runHandler_missing_config (env : Env) (data_dir : String) (initRaises : Bool)
    (body : Body) (h : env.pathExists (configPathSpec env) = false) :
    (runHandler (get_client env data_dir initRaises) body).term = .exited 1 ∧
    (runHandler (get_client env data_dir initRaises) body).stderr ≠ [] ∧
    Event.constructClient ∉ (runHandler (get_client env data_dir initRaises) body).events := by
  rw [get_client_eq]
  by_cases hi : env.openvikingInstalled <;> simp [hi, h, runHandler]

/-- `sorted(...)` returns the empty list only on the empty list. -/
theorem sortStrings_eq_nil_iff (l : List String) : sortStrings l = [] ↔ l = [] := by
  constructor
  · intro h
    have hp := List.mergeSort_perm l (fun a b => decide (a ≤ b))
    rw [show l.mergeSort (fun a b => decide (a ≤ b)) = sortStrings l from rfl, h] at hp
    exact hp.symm.eq_nil
  · intro h
    subst h
    simp [sortStrings]

/-! ### C3: `add-dir` with no matching files -/

/-- C3: when the glob pattern matches zero files, `add-dir` prints the
"no files matching" message, constructs no client (no events at all), and
returns normally, i.e. the process exits with success status. -/
theorem add_dir_no_matches (env : Env) (initRaises : Bool) (addRes : String → AddResult)
    (dir_path patternArg data_dir : String) (globMatches : List String)
    (h : globMatches = []) :
    (cmd_add_dir env initRaises addRes dir_path patternArg data_dir globMatches).stdout =
      ["No files matching '" ++ (if patternArg = "" then "*.md" else patternArg) ++
        "' found in " ++ dir_path] ∧
    (cmd_add_dir env initRaises addRes dir_path patternArg data_dir globMatches).term =
      .normal ∧
    Event.constructClient ∉
      (cmd_add_dir env initRaises addRes dir_path patternArg data_dir globMatches).events ∧
    (cmd_add_dir env initRaises addRes dir_path patternArg data_dir globMatches).events = [] := by
  subst h
  simp [cmd_add_dir, sortStrings]

/-- Witness for C3 at a concrete invocation. -/
theorem add_dir_no_matches_witness :
    ([] : List String) = [] ∧
    ((cmd_add_dir ⟨true, none, "/home/u", fun _ => true, id⟩ false
        (fun _ => ⟨none, none, none⟩) "./docs" "" "./openviking_data" []).stdout =
      ["No files matching '" ++ (if ("" : String) = "" then "*.md" else "") ++
        "' found in ./docs"] ∧
    (cmd_add_dir ⟨true, none, "/home/u", fun _ => true, id⟩ false
        (fun _ => ⟨none, none, none⟩) "./docs" "" "./openviking_data" []).term = .normal ∧
    Event.constructClient ∉
      (cmd_add_dir ⟨true, none, "/home/u", fun _ => true, id⟩ false
        (fun _ => ⟨none, none, none⟩) "./docs" "" "./openviking_data" []).events ∧
    (cmd_add_dir ⟨true, none, "/home/u", fun _ => true, id⟩ false
        (fun _ => ⟨none, none, none⟩) "./docs" "" "./openviking_data" []).events = []) :=
  ⟨rfl, add_dir_no_matches _ false _ "./docs" "" "./openviking_data" [] rfl⟩

/-! ### C4: missing configuration file -/

/-- C4: for every client-using subcommand (for `add-dir`, on invocations
whose glob matched at least one file, since otherwise it returns before
touching the client), a missing configuration file makes the process print a
diagnostic to stderr and exit with status 1 before any client is constructed
— in particular before the data directory is touched, which happens only at
client construction. -/
theorem missing_config_terminates_before_client (env : Env) (initRaises : Bool)
    (oAdd : AddOracle) (addRes : String → AddResult) (oSearch : SearchOracle)
    (lsResult : String → List LsEntry) (tier : String → Option String)
    (file_path dir_path patternArg query uriArg data_dir : String) (limit : Int)
    (globMatches : List String)
    (h : env.pathExists (configPathSpec env) = false) :
    ((cmd_add env initRaises oAdd file_path data_dir).term = .exited 1 ∧
      (cmd_add env initRaises oAdd file_path data_dir).stderr ≠ [] ∧
      Event.constructClient ∉ (cmd_add env initRaises oAdd file_path data_dir).events) ∧
    (globMatches ≠ [] →
      (cmd_add_dir env initRaises addRes dir_path patternArg data_dir globMatches).term =
        .exited 1 ∧
      (cmd_add_dir env initRaises addRes dir_path patternArg data_dir globMatches).stderr ≠ [] ∧
      Event.constructClient ∉
        (cmd_add_dir env initRaises addRes dir_path patternArg data_dir globMatches).events) ∧
    ((cmd_search env initRaises oSearch query limit data_dir).term = .exited 1 ∧
      (cmd_search env initRaises oSearch query limit data_dir).stderr ≠ [] ∧
      Event.constructClient ∉ (cmd_search env initRaises oSearch query limit data_dir).events) ∧
    ((cmd_ls env initRaises lsResult uriArg data_dir).term = .exited 1 ∧
      (cmd_ls env initRaises lsResult uriArg data_dir).stderr ≠ [] ∧
      Event.constructClient ∉ (cmd_ls env initRaises lsResult uriArg data_dir).events) ∧
    ((cmd_abstract env initRaises tier uriArg data_dir).term = .exited 1 ∧
      (cmd_abstract env initRaises tier uriArg data_dir).stderr ≠ [] ∧
      Event.constructClient ∉ (cmd_abstract env initRaises tier uriArg data_dir).events) ∧
    ((cmd_overview env initRaises tier uriArg data_dir).term = .exited 1 ∧
      (cmd_overview env initRaises tier uriArg data_dir).stderr ≠ [] ∧
      Event.constructClient ∉ (cmd_overview env initRaises tier uriArg data_dir).events) ∧
    ((cmd_read env initRaises tier uriArg data_dir).term = .exited 1 ∧
      (cmd_read env initRaises tier uriArg data_dir).stderr ≠ [] ∧
      Event.constructClient ∉ (cmd_read env initRaises tier uriArg data_dir).events) := by
  refine ⟨runHandler_missing_config env data_dir initRaises _ h, ?_,
    runHandler_missing_config env data_dir initRaises _ h,
    runHandler_missing_config env data_dir initRaises _ h,
    runHandler_missing_config env data_dir initRaises _ h,
    runHandler_missing_config env data_dir initRaises _ h,
    runHandler_missing_config env data_dir initRaises _ h⟩
  intro hg
  have hne : ¬ sortStrings globMatches = [] :=
    fun hh => hg ((sortStrings_eq_nil_iff globMatches).mp hh)
  have hfe : (sortStrings globMatches).isEmpty = false := by
    simp [List.isEmpty_iff, hne]
  have heq : cmd_add_dir env initRaises addRes dir_path patternArg data_dir globMatches =
      runHandler (get_client env data_dir initRaises)
        (addDirBody addRes (sortStrings globMatches)) := by
    unfold cmd_add_dir
    simp [hfe]
  rw [heq]
  exact runHandler_missing_config env data_dir initRaises _ h

/-- Witness for C4 at a concrete environment with the configuration file
absent. -/
theorem missing_config_terminates_before_client_witness :
    (Env.pathExists ⟨true, none, "/home/u", fun _ => false, id⟩
        (configPathSpec ⟨true, none, "/home/u", fun _ => false, id⟩) = false) ∧
    ((cmd_add ⟨true, none, "/home/u", fun _ => false, id⟩ false
        ⟨fun _ => .returns ⟨none, none, none⟩, .returns ()⟩ "a.md" "./d").term = .exited 1 ∧
      (cmd_add ⟨true, none, "/home/u", fun _ => false, id⟩ false
        ⟨fun _ => .returns ⟨none, none, none⟩, .returns ()⟩ "a.md" "./d").stderr ≠ [] ∧
      Event.constructClient ∉ (cmd_add ⟨true, none, "/home/u", fun _ => false, id⟩ false
        ⟨fun _ => .returns ⟨none, none, none⟩, .returns ()⟩ "a.md" "./d").events) ∧
    ((["x.md"] : List String) ≠ [] →
      (cmd_add_dir ⟨true, none, "/home/u", fun _ => false, id⟩ false
        (fun _ => ⟨none, none, none⟩) "./docs" "*.md" "./d" ["x.md"]).term = .exited 1 ∧
      (cmd_add_dir ⟨true, none, "/home/u", fun _ => false, id⟩ false
        (fun _ => ⟨none, none, none⟩) "./docs" "*.md" "./d" ["x.md"]).stderr ≠ [] ∧
      Event.constructClient ∉
        (cmd_add_dir ⟨true, none, "/home/u", fun _ => false, id⟩ false
          (fun _ => ⟨none, none, none⟩) "./docs" "*.md" "./d" ["x.md"]).events) ∧
    ((cmd_search ⟨true, none, "/home/u", fun _ => false, id⟩ false
        ⟨[], fun _ => .returns none⟩ "q" 5 "./d").term = .exited 1 ∧
      (cmd_search ⟨true, none, "/home/u", fun _ => false, id⟩ false
        ⟨[], fun _ => .returns none⟩ "q" 5 "./d").stderr ≠ [] ∧
      Event.constructClient ∉ (cmd_search ⟨true, none, "/home/u", fun _ => false, id⟩ false
        ⟨[], fun _ => .returns none⟩ "q" 5 "./d").events) ∧
    ((cmd_ls ⟨true, none, "/home/u", fun _ => false, id⟩ false
        (fun _ => []) "u" "./d").term = .exited 1 ∧
      (cmd_ls ⟨true, none, "/home/u", fun _ => false, id⟩ false
        (fun _ => []) "u" "./d").stderr ≠ [] ∧
      Event.constructClient ∉ (cmd_ls ⟨true, none, "/home/u", fun _ => false, id⟩ false
        (fun _ => []) "u" "./d").events) ∧
    ((cmd_abstract ⟨true, none, "/home/u", fun _ => false, id⟩ false
        (fun _ => none) "u" "./d").term = .exited 1 ∧
      (cmd_abstract ⟨true, none, "/home/u", fun _ => false, id⟩ false
        (fun _ => none) "u" "./d").stderr ≠ [] ∧
      Event.constructClient ∉ (cmd_abstract ⟨true, none, "/home/u", fun _ => false, id⟩ false
        (fun _ => none) "u" "./d").events) ∧
    ((cmd_overview ⟨true, none, "/home/u", fun _ => false, id⟩ false
        (fun _ => none) "u" "./d").term = .exited 1 ∧
      (cmd_overview ⟨true, none, "/home/u", fun _ => false, id⟩ false
        (fun _ => none) "u" "./d").stderr ≠ [] ∧
      Event.constructClient ∉ (cmd_overview ⟨true, none, "/home/u", fun _ => false, id⟩ false
        (fun _ => none) "u" "./d").events) ∧
    ((cmd_read ⟨true, none, "/home/u", fun _ => false, id⟩ false
        (fun _ => none) "u" "./d").term = .exited 1 ∧
      (cmd_read ⟨true, none, "/home/u", fun _ => false, id⟩ false
        (fun _ => none) "u" "./d").stderr ≠ [] ∧
      Event.constructClient ∉ (cmd_read ⟨true, none, "/home/u", fun _ => false, id⟩ false
        (fun _ => none) "u" "./d").events) :=
  ⟨rfl, missing_config_terminates_before_client ⟨true, none, "/home/u", fun _ => false, id⟩
    false ⟨fun _ => .returns ⟨none, none, none⟩, .returns ()⟩ (fun _ => ⟨none, none, none⟩)
    ⟨[], fun _ => .returns none⟩ (fun _ => []) (fun _ => none)
    "a.md" "./docs" "*.md" "q" "u" "./d" 5 ["x.md"] rfl⟩

/-! ### C8: configuration path resolution -/

/-- C8: both the client factory and the `info` command resolve the
configuration file to the value of `OPENVIKING_CONFIG_FILE` when the
variable is set and to `~/.openviking/ov.conf` under the user's home
directory otherwise: `configPathSpec` is exactly that rule, `cmd_info`'s
second output line shows that path, and `get_client`'s missing-config
diagnostic names that path. -/
theorem config_path_resolution (env : Env) (o : InfoOracle)
    (data_dir : String) (initRaises : Bool) :
    configPathSpec env =
      (match env.configVar with
       | some v => v
       | none => env.home ++ "/.openviking/ov.conf") ∧
    (cmd_info env o data_dir).stdout[1]? = some ("  Config: " ++ configPathSpec env) ∧
    (env.openvikingInstalled = true → env.pathExists (configPathSpec env) = false →
      (get_client env data_dir initRaises).stderr =
        ["ERROR: Config not found at " ++ configPathSpec env,
         "Create ~/.openviking/ov.conf or set OPENVIKING_CONFIG_FILE"]) := by
  refine ⟨?_, ?_, ?_⟩
  · unfold configPathSpec
    cases env.configVar <;> rfl
  · cases hc : env.configVar <;> simp [cmd_info, configPathSpec, hc]
  · intro h1 h2
    rw [get_client_eq]
    simp [h1, h2]

/-- Witness for C8 with the environment variable set and the file absent. -/
theorem config_path_resolution_witness :
    configPathSpec ⟨true, some "/etc/ov.conf", "/home/u", fun _ => false, id⟩ =
      (match (⟨true, some "/etc/ov.conf", "/home/u", fun _ => false, id⟩ : Env).configVar with
       | some v => v
       | none => "/home/u" ++ "/.openviking/ov.conf") ∧
    (cmd_info ⟨true, some "/etc/ov.conf", "/home/u", fun _ => false, id⟩
        ⟨.ok ⟨none, none, none, none⟩, .importError⟩ "./d").stdout[1]? =
      some ("  Config: " ++
        configPathSpec ⟨true, some "/etc/ov.conf", "/home/u", fun _ => false, id⟩) ∧
    ((⟨true, some "/etc/ov.conf", "/home/u", fun _ => false, id⟩ : Env).openvikingInstalled =
        true →
      (⟨true, some "/etc/ov.conf", "/home/u", fun _ => false, id⟩ : Env).pathExists
        (configPathSpec ⟨true, some "/etc/ov.conf", "/home/u", fun _ => false, id⟩) = false →
      (get_client ⟨true, some "/etc/ov.conf", "/home/u", fun _ => false, id⟩ "./d"
          false).stderr =
        ["ERROR: Config not found at " ++
           configPathSpec ⟨true, some "/etc/ov.conf", "/home/u", fun _ => false, id⟩,
         "Create ~/.openviking/ov.conf or set OPENVIKING_CONFIG_FILE"]) :=
  config_path_resolution ⟨true, some "/etc/ov.conf", "/home/u", fun _ => false, id⟩
    ⟨.ok ⟨none, none, none, none⟩, .importError⟩ "./d" false

/-- An optional string is falsy exactly when it defaults to the empty
string, i.e. it is `None` or `""`. -/
theorem pyTruthyStr_eq_false_iff (r : Option String) : pyTruthyStr r = false ↔ r.getD "" = "" := by
  cases r <;> simp [pyTruthyStr]

/-! ### C7: empty results are soft successes -/

/-- C7: with a working client, an empty listing and absent
abstract/overview/read content each produce their specific informational
message on stdout and a normal return, so the process exits with success
status. -/
theorem empty_results_soft_messages (env : Env) (lsResult : String → List LsEntry)
    (abstractResult overviewResult readResult : String → Option String)
    (uriArg uri data_dir : String)
    (hok : (get_client env data_dir false).outcome = .ok)
    (hls : lsResult (if uriArg = "" then "viking://resources" else uriArg) = [])
    (hab : (abstractResult uri).getD "" = "")
    (hov : (overviewResult uri).getD "" = "")
    (hrd : (readResult uri).getD "" = "") :
    ((cmd_ls env false lsResult uriArg data_dir).stdout =
        ["Empty: " ++ (if uriArg = "" then "viking://resources" else uriArg)] ∧
      (cmd_ls env false lsResult uriArg data_dir).term = .normal) ∧
    ((cmd_abstract env false abstractResult uri data_dir).stdout =
        ["No abstract available for " ++ uri] ∧
      (cmd_abstract env false abstractResult uri data_dir).term = .normal) ∧
    ((cmd_overview env false overviewResult uri data_dir).stdout =
        ["No overview available for " ++ uri] ∧
      (cmd_overview env false overviewResult uri data_dir).term = .normal) ∧
    ((cmd_read env false readResult uri data_dir).stdout = ["No content at " ++ uri] ∧
      (cmd_read env false readResult uri data_dir).term = .normal) := by
  have hab' : pyTruthyStr (abstractResult uri) = false := (pyTruthyStr_eq_false_iff _).mpr hab
  have hov' : pyTruthyStr (overviewResult uri) = false := (pyTruthyStr_eq_false_iff _).mpr hov
  have hrd' : pyTruthyStr (readResult uri) = false := (pyTruthyStr_eq_false_iff _).mpr hrd
  refine ⟨⟨?_, ?_⟩, ⟨?_, ?_⟩, ⟨?_, ?_⟩, ?_, ?_⟩
  · rw [show cmd_ls env false lsResult uriArg data_dir =
        runHandler (get_client env data_dir false)
          (lsBody (lsResult (if uriArg = "" then "viking://resources" else uriArg))
            (if uriArg = "" then "viking://resources" else uriArg)) from rfl,
      runHandler_stdout_of_ok _ _ hok]
    simp [lsBody, hls]
  · rw [show cmd_ls env false lsResult uriArg data_dir =
        runHandler (get_client env data_dir false)
          (lsBody (lsResult (if uriArg = "" then "viking://resources" else uriArg))
            (if uriArg = "" then "viking://resources" else uriArg)) from rfl,
      (runHandler_stderr_term_of_ok _ _ hok).2]
    simp [lsBody, hls]
  · rw [show cmd_abstract env false abstractResult uri data_dir =
        runHandler (get_client env data_dir false)
          (abstractBody (abstractResult uri) uri) from rfl,
      runHandler_stdout_of_ok _ _ hok]
    simp [abstractBody, hab']
  · rw [show cmd_abstract env false abstractResult uri data_dir =
        runHandler (get_client env data_dir false)
          (abstractBody (abstractResult uri) uri) from rfl,
      (runHandler_stderr_term_of_ok _ _ hok).2]
    simp [abstractBody, hab']
  · rw [show cmd_overview env false overviewResult uri data_dir =
        runHandler (get_client env data_dir false)
          (overviewBody (overviewResult uri) uri) from rfl,
      runHandler_stdout_of_ok _ _ hok]
    simp [overviewBody, hov']
  · rw [show cmd_overview env false overviewResult uri data_dir =
        runHandler (get_client env data_dir false)
          (overviewBody (overviewResult uri) uri) from rfl,
      (runHandler_stderr_term_of_ok _ _ hok).2]
    simp [overviewBody, hov']
  · rw [show cmd_read env false readResult uri data_dir =
        runHandler (get_client env data_dir false)
          (readBody (readResult uri) uri) from rfl,
      runHandler_stdout_of_ok _ _ hok]
    simp [readBody, hrd']
  · rw [show cmd_read env false readResult uri data_dir =
        runHandler (get_client env data_dir false)
          (readBody (readResult uri) uri) from rfl,
      (runHandler_stderr_term_of_ok _ _ hok).2]
    simp [readBody, hrd']

/-- Witness for C7 at a concrete environment and empty service results. -/
theorem empty_results_soft_messages_witness :
    (get_client ⟨true, none, "/home/u", fun _ => true, id⟩ "./d" false).outcome = .ok ∧
    ((fun _ => ([] : List LsEntry))
        (if ("u" : String) = "" then "viking://resources" else "u") = [] ∧
      ((fun _ => (none : Option String)) "v").getD "" = "") ∧
    (((cmd_ls ⟨true, none, "/home/u", fun _ => true, id⟩ false (fun _ => []) "u" "./d").stdout =
        ["Empty: " ++ (if ("u" : String) = "" then "viking://resources" else "u")] ∧
      (cmd_ls ⟨true, none, "/home/u", fun _ => true, id⟩ false
        (fun _ => []) "u" "./d").term = .normal) ∧
    ((cmd_abstract ⟨true, none, "/home/u", fun _ => true, id⟩ false
          (fun _ => none) "v" "./d").stdout = ["No abstract available for v"] ∧
      (cmd_abstract ⟨true, none, "/home/u", fun _ => true, id⟩ false
        (fun _ => none) "v" "./d").term = .normal) ∧
    ((cmd_overview ⟨true, none, "/home/u", fun _ => true, id⟩ false
          (fun _ => none) "v" "./d").stdout = ["No overview available for v"] ∧
      (cmd_overview ⟨true, none, "/home/u", fun _ => true, id⟩ false
        (fun _ => none) "v" "./d").term = .normal) ∧
    ((cmd_read ⟨true, none, "/home/u", fun _ => true, id⟩ false
          (fun _ => none) "v" "./d").stdout = ["No content at v"] ∧
      (cmd_read ⟨true, none, "/home/u", fun _ => true, id⟩ false
        (fun _ => none) "v" "./d").term = .normal)) :=
  ⟨by decide, ⟨by decide, by decide⟩,
    empty_results_soft_messages ⟨true, none, "/home/u", fun _ => true, id⟩
      (fun _ => []) (fun _ => none) (fun _ => none) (fun _ => none) "u" "v" "./d"
      (by decide) (by decide) (by decide) (by decide) (by decide)⟩

/-! ### C5: client release on every exit path -/

/-- C5 counterexample: a concrete `add` invocation in which
`client.initialize()` raises. The client is constructed, the handler exits
by exception, and the client is never closed — so the claim that the client
is released on every exit path of every client-using handler, including an
exception raised by any client call, is false of the code. -/
theorem client_release_counterexample :
    Event.constructClient ∈
      (cmd_add ⟨true, none, "/home/u", fun _ => true, id⟩ true
        ⟨fun _ => .returns ⟨none, none, none⟩, .returns ()⟩ "a.md" "./d").events ∧
    Event.closeCall ∉
      (cmd_add ⟨true, none, "/home/u", fun _ => true, id⟩ true
        ⟨fun _ => .returns ⟨none, none, none⟩, .returns ()⟩ "a.md" "./d").events ∧
    (cmd_add ⟨true, none, "/home/u", fun _ => true, id⟩ true
      ⟨fun _ => .returns ⟨none, none, none⟩, .returns ()⟩ "a.md" "./d").term = .raised := by
  decide

/-- When acquisition succeeded, the handler's last client event is `close`. -/
theorem runHandler_close_last (g : GetClientRun) (body : Body)
    (h : g.outcome = .ok) :
    Event.closeCall ∈ (runHandler g body).events ∧
    (runHandler g body).events.getLast? = some Event.closeCall := by
  rw [runHandler_events_of_ok g body h]
  exact ⟨by simp, List.getLast?_concat _⟩

/-- C5 amended: on every exit path of every client-using command handler on
which client acquisition (construction plus initialization) completed —
normal completion, partial failure, or an exception raised by a later client
call — `client.close()` runs as the final client interaction before the
handler returns or propagates. When `client.initialize()` itself raises, the
constructed client is left open (see the counterexample). -/
theorem client_released_after_acquisition (env : Env) (initRaises : Bool)
    (oAdd : AddOracle) (addRes : String → AddResult) (oSearch : SearchOracle)
    (lsResult : String → List LsEntry) (tier : String → Option String)
    (file_path dir_path patternArg query uriArg data_dir : String) (limit : Int)
    (globMatches : List String)
    (hok : (get_client env data_dir initRaises).outcome = .ok) :
    (Event.closeCall ∈ (cmd_add env initRaises oAdd file_path data_dir).events ∧
      (cmd_add env initRaises oAdd file_path data_dir).events.getLast? =
        some Event.closeCall) ∧
    (globMatches ≠ [] →
      Event.closeCall ∈
        (cmd_add_dir env initRaises addRes dir_path patternArg data_dir globMatches).events ∧
      (cmd_add_dir env initRaises addRes dir_path patternArg data_dir
        globMatches).events.getLast? = some Event.closeCall) ∧
    (Event.closeCall ∈ (cmd_search env initRaises oSearch query limit data_dir).events ∧
      (cmd_search env initRaises oSearch query limit data_dir).events.getLast? =
        some Event.closeCall) ∧
    (Event.closeCall ∈ (cmd_ls env initRaises lsResult uriArg data_dir).events ∧
      (cmd_ls env initRaises lsResult uriArg data_dir).events.getLast? =
        some Event.closeCall) ∧
    (Event.closeCall ∈ (cmd_abstract env initRaises tier uriArg data_dir).events ∧
      (cmd_abstract env initRaises tier uriArg data_dir).events.getLast? =
        some Event.closeCall) ∧
    (Event.closeCall ∈ (cmd_overview env initRaises tier uriArg data_dir).events ∧
      (cmd_overview env initRaises tier uriArg data_dir).events.getLast? =
        some Event.closeCall) ∧
    (Event.closeCall ∈ (cmd_read env initRaises tier uriArg data_dir).events ∧
      (cmd_read env initRaises tier uriArg data_dir).events.getLast? =
        some Event.closeCall) := by
  refine ⟨runHandler_close_last _ _ hok, ?_, runHandler_close_last _ _ hok,
    runHandler_close_last _ _ hok, runHandler_close_last _ _ hok,
    runHandler_close_last _ _ hok, runHandler_close_last _ _ hok⟩
  intro hg
  have hne : ¬ sortStrings globMatches = [] :=
    fun hh => hg ((sortStrings_eq_nil_iff globMatches).mp hh)
  have hfe : (sortStrings globMatches).isEmpty = false := by
    simp [List.isEmpty_iff, hne]
  have heq : cmd_add_dir env initRaises addRes dir_path patternArg data_dir globMatches =
      runHandler (get_client env data_dir initRaises)
        (addDirBody addRes (sortStrings globMatches)) := by
    unfold cmd_add_dir
    simp [hfe]
  rw [heq]
  exact runHandler_close_last _ _ hok

/-- Witness for the amended C5 at a concrete invocation where the `add` call
itself raises: the close still happens last. -/
theorem client_released_after_acquisition_witness :
    (get_client ⟨true, none, "/home/u", fun _ => true, id⟩ "./d" false).outcome = .ok ∧
    (Event.closeCall ∈
        (cmd_add ⟨true, none, "/home/u", fun _ => true, id⟩ false
          ⟨fun _ => .raises, .returns ()⟩ "a.md" "./d").events ∧
      (cmd_add ⟨true, none, "/home/u", fun _ => true, id⟩ false
        ⟨fun _ => .raises, .returns ()⟩ "a.md" "./d").events.getLast? =
          some Event.closeCall) ∧
    ((["x.md"] : List String) ≠ [] →
      Event.closeCall ∈
        (cmd_add_dir ⟨true, none, "/home/u", fun _ => true, id⟩ false
          (fun _ => ⟨none, none, none⟩) "./docs" "*.md" "./d" ["x.md"]).events ∧
      (cmd_add_dir ⟨true, none, "/home/u", fun _ => true, id⟩ false
        (fun _ => ⟨none, none, none⟩) "./docs" "*.md" "./d" ["x.md"]).events.getLast? =
          some Event.closeCall) ∧
    (Event.closeCall ∈
        (cmd_search ⟨true, none, "/home/u", fun _ => true, id⟩ false
          ⟨[], fun _ => .raises⟩ "q" 5 "./d").events ∧
      (cmd_search ⟨true, none, "/home/u", fun _ => true, id⟩ false
        ⟨[], fun _ => .raises⟩ "q" 5 "./d").events.getLast? = some Event.closeCall) ∧
    (Event.closeCall ∈
        (cmd_ls ⟨true, none, "/home/u", fun _ => true, id⟩ false
          (fun _ => []) "u" "./d").events ∧
      (cmd_ls ⟨true, none, "/home/u", fun _ => true, id⟩ false
        (fun _ => []) "u" "./d").events.getLast? = some Event.closeCall) ∧
    (Event.closeCall ∈
        (cmd_abstract ⟨true, none, "/home/u", fun _ => true, id⟩ false
          (fun _ => none) "u" "./d").events ∧
      (cmd_abstract ⟨true, none, "/home/u", fun _ => true, id⟩ false
        (fun _ => none) "u" "./d").events.getLast? = some Event.closeCall) ∧
    (Event.closeCall ∈
        (cmd_overview ⟨true, none, "/home/u", fun _ => true, id⟩ false
          (fun _ => none) "u" "./d").events ∧
      (cmd_overview ⟨true, none, "/home/u", fun _ => true, id⟩ false
        (fun _ => none) "u" "./d").events.getLast? = some Event.closeCall) ∧
    (Event.closeCall ∈
        (cmd_read ⟨true, none, "/home/u", fun _ => true, id⟩ false
          (fun _ => none) "u" "./d").events ∧
      (cmd_read ⟨true, none, "/home/u", fun _ => true, id⟩ false
        (fun _ => none) "u" "./d").events.getLast? = some Event.closeCall) :=
  ⟨by decide, client_released_after_acquisition ⟨true, none, "/home/u", fun _ => true, id⟩
    false ⟨fun _ => .raises, .returns ()⟩ (fun _ => ⟨none, none, none⟩)
    ⟨[], fun _ => .raises⟩ (fun _ => []) (fun _ => none)
    "a.md" "./docs" "*.md" "q" "u" "./d" 5 ["x.md"] (by decide)⟩

/-! ### C6 / C10: `ls` display -/

/-- A hidden entry (name starting with `.`) prints nothing. -/
theorem lsEntryLines_hidden (e : LsEntry) (h : pyStartsWith (e.name.getD "?") "." = true) :
    lsEntryLines e = [] := by
  simp [lsEntryLines, h]

/-- A visible entry prints its icon line (size for files only) and its URI
line. -/
theorem lsEntryLines_visible (e : LsEntry) (h : pyStartsWith (e.name.getD "?") "." = false) :
    lsEntryLines e =
      ["  " ++ (if e.isDir.getD false then "📁" else "📄") ++ " " ++ e.name.getD "?" ++
         (if ¬ e.isDir.getD false then " (" ++ toString (e.size.getD 0) ++ "B)" else ""),
       "     " ++ e.uri.getD ""] := by
  simp [lsEntryLines, h]

/-- Hidden entries contribute nothing: the display is the display of the
visible entries. -/
theorem flatMap_lsEntryLines_filter (entries : List LsEntry) :
    entries.flatMap lsEntryLines =
      (entries.filter (fun e => ¬ pyStartsWith (e.name.getD "?") ".")).flatMap lsEntryLines := by
  induction entries with
  | nil => rfl
  | cons e es ih =>
    cases h : pyStartsWith (e.name.getD "?") "." with
    | true =>
      rw [List.flatMap_cons, lsEntryLines_hidden e h, List.nil_append, ih, List.filter_cons]
      simp [h]
    | false =>
      rw [List.flatMap_cons, ih, List.filter_cons]
      simp [h]

/-- With a working client and a non-empty listing, `cmd_ls` prints the
header followed by the entry lines. -/
theorem cmd_ls_stdout_nonempty (env : Env) (lsResult : String → List LsEntry)
    (entries : List LsEntry) (uriArg data_dir : String)
    (hok : (get_client env data_dir false).outcome = .ok)
    (hent : lsResult (if uriArg = "" then "viking://resources" else uriArg) = entries)
    (hne : entries ≠ []) :
    (cmd_ls env false lsResult uriArg data_dir).stdout =
      ("📁 " ++ (if uriArg = "" then "viking://resources" else uriArg) ++ "\n") ::
        entries.flatMap lsEntryLines := by
  rw [show cmd_ls env false lsResult uriArg data_dir =
      runHandler (get_client env data_dir false)
        (lsBody (lsResult (if uriArg = "" then "viking://resources" else uriArg))
          (if uriArg = "" then "viking://resources" else uriArg)) from rfl,
    runHandler_stdout_of_ok _ _ hok, hent]
  simp [lsBody, List.isEmpty_iff, hne]

/-- C6: every entry whose name begins with `.` is omitted from the `ls`
display regardless of its directory flag, and every visible entry shows an
icon, its name, its byte size only when it is not a directory, and its URI. -/
theorem ls_hidden_filter_and_format (env : Env) (lsResult : String → List LsEntry)
    (entries : List LsEntry) (uriArg data_dir : String)
    (hok : (get_client env data_dir false).outcome = .ok)
    (hent : lsResult (if uriArg = "" then "viking://resources" else uriArg) = entries)
    (hne : entries ≠ []) :
    (cmd_ls env false lsResult uriArg data_dir).stdout =
      ("📁 " ++ (if uriArg = "" then "viking://resources" else uriArg) ++ "\n") ::
        (entries.filter (fun e => ¬ pyStartsWith (e.name.getD "?") ".")).flatMap lsEntryLines ∧
    (∀ e ∈ entries, pyStartsWith (e.name.getD "?") "." = true → lsEntryLines e = []) ∧
    (∀ e ∈ entries, pyStartsWith (e.name.getD "?") "." = false →
      lsEntryLines e =
        ["  " ++ (if e.isDir.getD false then "📁" else "📄") ++ " " ++ e.name.getD "?" ++
           (if ¬ e.isDir.getD false then " (" ++ toString (e.size.getD 0) ++ "B)" else ""),
         "     " ++ e.uri.getD ""]) := by
  refine ⟨?_, fun e _ h => lsEntryLines_hidden e h, fun e _ h => lsEntryLines_visible e h⟩
  rw [cmd_ls_stdout_nonempty env lsResult entries uriArg data_dir hok hent hne,
    flatMap_lsEntryLines_filter]

/-- Witness for C6: one hidden directory, one hidden file, one visible file,
one visible directory. -/
theorem ls_hidden_filter_and_format_witness :
    (get_client ⟨true, none, "/home/u", fun _ => true, id⟩ "./d" false).outcome = .ok ∧
    ((fun _ => [⟨some ".git", some true, some 0, some "viking://resources/.git"⟩,
                ⟨some ".hidden.md", some false, some 7, some "viking://resources/.hidden.md"⟩,
                ⟨some "a.md", some false, some 42, some "viking://resources/a.md"⟩,
                ⟨some "docs", some true, some 0, some "viking://resources/docs"⟩] :
        String → List LsEntry)
          (if ("viking://resources" : String) = "" then "viking://resources"
           else "viking://resources") =
        [⟨some ".git", some true, some 0, some "viking://resources/.git"⟩,
         ⟨some ".hidden.md", some false, some 7, some "viking://resources/.hidden.md"⟩,
         ⟨some "a.md", some false, some 42, some "viking://resources/a.md"⟩,
         ⟨some "docs", some true, some 0, some "viking://resources/docs"⟩]) ∧
    ([⟨some ".git", some true, some 0, some "viking://resources/.git"⟩,
      ⟨some ".hidden.md", some false, some 7, some "viking://resources/.hidden.md"⟩,
      ⟨some "a.md", some false, some 42, some "viking://resources/a.md"⟩,
      ⟨some "docs", some true, some 0, some "viking://resources/docs"⟩] :
        List LsEntry) ≠ [] ∧
    (cmd_ls ⟨true, none, "/home/u", fun _ => true, id⟩ false
        (fun _ => [⟨some ".git", some true, some 0, some "viking://resources/.git"⟩,
                   ⟨some ".hidden.md", some false, some 7,
                     some "viking://resources/.hidden.md"⟩,
                   ⟨some "a.md", some false, some 42, some "viking://resources/a.md"⟩,
                   ⟨some "docs", some true, some 0, some "viking://resources/docs"⟩])
        "viking://resources" "./d").stdout =
      ["📁 viking://resources\n",
       "  📄 a.md (42B)", "     viking://resources/a.md",
       "  📁 docs", "     viking://resources/docs"] := by
  refine ⟨by decide, rfl, by decide, ?_⟩
  have h := (ls_hidden_filter_and_format ⟨true, none, "/home/u", fun _ => true, id⟩
    (fun _ => [⟨some ".git", some true, some 0, some "viking://resources/.git"⟩,
               ⟨some ".hidden.md", some false, some 7, some "viking://resources/.hidden.md"⟩,
               ⟨some "a.md", some false, some 42, some "viking://resources/a.md"⟩,
               ⟨some "docs", some true, some 0, some "viking://resources/docs"⟩])
    [⟨some ".git", some true, some 0, some "viking://resources/.git"⟩,
     ⟨some ".hidden.md", some false, some 7, some "viking://resources/.hidden.md"⟩,
     ⟨some "a.md", some false, some 42, some "viking://resources/a.md"⟩,
     ⟨some "docs", some true, some 0, some "viking://resources/docs"⟩]
    "viking://resources" "./d" (by decide) rfl (by decide)).1
  rw [h]
  decide

/-- The `ls` header line is never the `Empty:` message. -/
theorem header_ne_empty_line (uri : String) : "📁 " ++ uri ++ "\n" ≠ "Empty: " ++ uri := by
  intro h
  have hl := congrArg String.length h
  rw [String.length_append, String.length_append, String.length_append,
    show ("📁 " : String).length = 2 from rfl,
    show ("\n" : String).length = 1 from rfl,
    show ("Empty: " : String).length = 7 from rfl] at hl
  omega

/-- If every entry is hidden, the entry lines vanish entirely. -/
theorem flatMap_lsEntryLines_all_hidden (entries : List LsEntry)
    (h : ∀ e ∈ entries, pyStartsWith (e.name.getD "?") "." = true) :
    entries.flatMap lsEntryLines = [] := by
  induction entries with
  | nil => rfl
  | cons e es ih =>
    simp [lsEntryLines_hidden e (h e (by simp)), ih (fun x hx => h x (by simp [hx]))]

/-- C10: `cmd_ls` prints the `Empty:` message exactly when the listing is
empty; on a non-empty listing whose entries are all hidden it prints the
header alone, with no entry lines and no `Empty:` message. -/
theorem ls_empty_message_iff (env : Env) (lsResult : String → List LsEntry)
    (entries : List LsEntry) (uriArg data_dir : String)
    (hok : (get_client env data_dir false).outcome = .ok)
    (hent : lsResult (if uriArg = "" then "viking://resources" else uriArg) = entries) :
    ((cmd_ls env false lsResult uriArg data_dir).stdout =
        ["Empty: " ++ (if uriArg = "" then "viking://resources" else uriArg)] ↔
      entries = []) ∧
    (entries ≠ [] → (∀ e ∈ entries, pyStartsWith (e.name.getD "?") "." = true) →
      (cmd_ls env false lsResult uriArg data_dir).stdout =
        ["📁 " ++ (if uriArg = "" then "viking://resources" else uriArg) ++ "\n"] ∧
      ("Empty: " ++ (if uriArg = "" then "viking://resources" else uriArg)) ∉
        (cmd_ls env false lsResult uriArg data_dir).stdout) := by
  constructor
  · constructor
    · intro h
      by_cases hne : entries = []
      · exact hne
      · exfalso
        rw [cmd_ls_stdout_nonempty env lsResult entries uriArg data_dir hok hent hne] at h
        exact header_ne_empty_line _ (List.cons.inj h).1
    · intro h
      rw [show cmd_ls env false lsResult uriArg data_dir =
          runHandler (get_client env data_dir false)
            (lsBody (lsResult (if uriArg = "" then "viking://resources" else uriArg))
              (if uriArg = "" then "viking://resources" else uriArg)) from rfl,
        runHandler_stdout_of_ok _ _ hok, hent, h]
      rfl
  · intro hne hall
    have hs := cmd_ls_stdout_nonempty env lsResult entries uriArg data_dir hok hent hne
    rw [flatMap_lsEntryLines_all_hidden entries hall] at hs
    rw [hs]
    refine ⟨rfl, ?_⟩
    intro hmem
    rcases List.mem_singleton.mp hmem with h
    exact header_ne_empty_line _ h.symm

/-- Witness for C10: a listing whose only entry is hidden. -/
theorem ls_empty_message_iff_witness :
    (get_client ⟨true, none, "/home/u", fun _ => true, id⟩ "./d" false).outcome = .ok ∧
    ((fun _ => [⟨some ".git", some true, some 0, some "viking://resources/.git"⟩] :
        String → List LsEntry)
          (if ("viking://resources" : String) = "" then "viking://resources"
           else "viking://resources") =
        [⟨some ".git", some true, some 0, some "viking://resources/.git"⟩]) ∧
    (((cmd_ls ⟨true, none, "/home/u", fun _ => true, id⟩ false
          (fun _ => [⟨some ".git", some true, some 0, some "viking://resources/.git"⟩])
          "viking://resources" "./d").stdout =
        ["Empty: " ++
           (if ("viking://resources" : String) = "" then "viking://resources"
            else "viking://resources")] ↔
      ([⟨some ".git", some true, some 0, some "viking://resources/.git"⟩] :
        List LsEntry) = []) ∧
    (([⟨some ".git", some true, some 0, some "viking://resources/.git"⟩] :
        List LsEntry) ≠ [] →
      (∀ e ∈ ([⟨some ".git", some true, some 0, some "viking://resources/.git"⟩] :
          List LsEntry), pyStartsWith (e.name.getD "?") "." = true) →
      (cmd_ls ⟨true, none, "/home/u", fun _ => true, id⟩ false
          (fun _ => [⟨some ".git", some true, some 0, some "viking://resources/.git"⟩])
          "viking://resources" "./d").stdout =
        ["📁 " ++
           (if ("viking://resources" : String) = "" then "viking://resources"
            else "viking://resources") ++ "\n"] ∧
      ("Empty: " ++
         (if ("viking://resources" : String) = "" then "viking://resources"
          else "viking://resources")) ∉
        (cmd_ls ⟨true, none, "/home/u", fun _ => true, id⟩ false
          (fun _ => [⟨some ".git", some true, some 0, some "viking://resources/.git"⟩])
          "viking://resources" "./d").stdout)) :=
  ⟨by decide, rfl,
    ls_empty_message_iff ⟨true, none, "/home/u", fun _ => true, id⟩
      (fun _ => [⟨some ".git", some true, some 0, some "viking://resources/.git"⟩])
      [⟨some ".git", some true, some 0, some "viking://resources/.git"⟩]
      "viking://resources" "./d" (by decide) rfl⟩

/-! ### C2 / C9: `add-dir` counters and submission order -/

/-- A file counts as a success exactly when its result's status field is
`"success"`. -/
theorem addDirEntry_snd (addRes : String → AddResult) (f : String) :
    (addDirEntry addRes f).2 = decide (((addRes f).status.getD "unknown") = "success") := by
  unfold addDirEntry
  by_cases h : ((addRes f).status.getD "unknown") = "success" <;> simp [h]

/-- The loop prints exactly one line per file, in order. -/
theorem addDirLoop_stdout (addRes : String → AddResult) (files : List String) :
    (addDirLoop addRes files).1 = files.map (fun f => (addDirEntry addRes f).1) := by
  induction files with
  | nil => rfl
  | cons f fs ih => simp [addDirLoop, ih]

/-- The success counter counts the succeeding files. -/
theorem addDirLoop_succ (addRes : String → AddResult) (files : List String) :
    (addDirLoop addRes files).2.1 = files.countP (fun f => (addDirEntry addRes f).2) := by
  induction files with
  | nil => rfl
  | cons f fs ih =>
    cases he : (addDirEntry addRes f).2 <;>
      simp [addDirLoop, he, ih, List.countP_cons]

/-- The failure counter counts the non-succeeding files. -/
theorem addDirLoop_fail (addRes : String → AddResult) (files : List String) :
    (addDirLoop addRes files).2.2 = files.countP (fun f => !(addDirEntry addRes f).2) := by
  induction files with
  | nil => rfl
  | cons f fs ih =>
    cases he : (addDirEntry addRes f).2 <;>
      simp [addDirLoop, he, ih, List.countP_cons]

/-- C2: over a non-empty matched file list, `add-dir` prints one line per
file in order (the success line for files whose status is `"success"`, the
failure line otherwise), then the processing-wait line, then the summary
line whose counts are exactly the number of files with status `"success"`
and the number without; the client performs a single `wait_processed`. -/
theorem add_dir_counts_and_summary (env : Env) (addRes : String → AddResult)
    (dir_path patternArg data_dir : String) (globMatches : List String)
    (hok : (get_client env data_dir false).outcome = .ok)
    (hg : globMatches ≠ []) :
    (cmd_add_dir env false addRes dir_path patternArg data_dir globMatches).stdout =
      (sortStrings globMatches).map (fun f => (addDirEntry addRes f).1) ++
        ["\n⏳ Processing " ++
           toString ((sortStrings globMatches).countP
             (fun f => decide (((addRes f).status.getD "unknown") = "success"))) ++
           " files...",
         "✅ Done. Success: " ++
           toString ((sortStrings globMatches).countP
             (fun f => decide (((addRes f).status.getD "unknown") = "success"))) ++
           ", Failed: " ++
           toString ((sortStrings globMatches).countP
             (fun f => !decide (((addRes f).status.getD "unknown") = "success")))] ∧
    (∀ f, ((addRes f).status.getD "unknown") = "success" →
      (addDirEntry addRes f).1 = "  ✅ " ++ f) ∧
    (∀ f, ((addRes f).status.getD "unknown") ≠ "success" →
      (addDirEntry addRes f).1 =
        "  ❌ " ++ f ++ ": " ++ ((addRes f).errors.getD []).headD "unknown error") ∧
    (cmd_add_dir env false addRes dir_path patternArg data_dir
      globMatches).events.count Event.waitProcessedCall = 1 := by
  have hne : ¬ sortStrings globMatches = [] :=
    fun hh => hg ((sortStrings_eq_nil_iff globMatches).mp hh)
  have hfe : (sortStrings globMatches).isEmpty = false := by
    simp [List.isEmpty_iff, hne]
  have heq : cmd_add_dir env false addRes dir_path patternArg data_dir globMatches =
      runHandler (get_client env data_dir false)
        (addDirBody addRes (sortStrings globMatches)) := by
    unfold cmd_add_dir
    simp [hfe]
  have hc1 : (sortStrings globMatches).countP (fun f => (addDirEntry addRes f).2) =
      (sortStrings globMatches).countP
        (fun f => decide (((addRes f).status.getD "unknown") = "success")) :=
    List.countP_congr (fun f _ => by rw [addDirEntry_snd])
  have hc2 : (sortStrings globMatches).countP (fun f => !(addDirEntry addRes f).2) =
      (sortStrings globMatches).countP
        (fun f => !decide (((addRes f).status.getD "unknown") = "success")) :=
    List.countP_congr (fun f _ => by rw [addDirEntry_snd])
  refine ⟨?_, ?_, ?_, ?_⟩
  · rw [heq, runHandler_stdout_of_ok _ _ hok]
    simp only [addDirBody]
    rw [addDirLoop_stdout, addDirLoop_succ, addDirLoop_fail, hc1, hc2]
  · intro f h
    unfold addDirEntry
    simp [h]
  · intro f h
    unfold addDirEntry
    simp [h]
  · rw [heq, runHandler_events_of_ok _ _ hok,
      (get_client_ok_shape env data_dir false hok).2]
    simp only [addDirBody]
    simp [List.count_append, List.count_cons]
    rw [List.count_eq_zero]
    intro hmem
    obtain ⟨f, -, hf⟩ := List.mem_map.mp hmem
    exact absurd hf (by simp)

/-- Witness for C2: two files, one succeeding and one failing. -/
theorem add_dir_counts_and_summary_witness :
    (get_client ⟨true, none, "/home/u", fun _ => true, id⟩ "./d" false).outcome = .ok ∧
    (["b.txt", "a.txt"] : List String) ≠ [] ∧
    ((cmd_add_dir ⟨true, none, "/home/u", fun _ => true, id⟩ false
        (fun f => if f = "a.txt" then ⟨some "success", some [], some "viking://resources/a"⟩
                  else ⟨some "failed", some ["boom"], none⟩)
        "./docs" "*.txt" "./d" ["b.txt", "a.txt"]).stdout =
      (sortStrings ["b.txt", "a.txt"]).map
          (fun f => (addDirEntry
            (fun f => if f = "a.txt" then ⟨some "success", some [], some "viking://resources/a"⟩
                      else ⟨some "failed", some ["boom"], none⟩) f).1) ++
        ["\n⏳ Processing " ++
           toString ((sortStrings ["b.txt", "a.txt"]).countP
             (fun f => decide ((((fun f => if f = "a.txt"
                 then (⟨some "success", some [], some "viking://resources/a"⟩ : AddResult)
                 else ⟨some "failed", some ["boom"], none⟩) f).status.getD "unknown") =
               "success"))) ++ " files...",
         "✅ Done. Success: " ++
           toString ((sortStrings ["b.txt", "a.txt"]).countP
             (fun f => decide ((((fun f => if f = "a.txt"
                 then (⟨some "success", some [], some "viking://resources/a"⟩ : AddResult)
                 else ⟨some "failed", some ["boom"], none⟩) f).status.getD "unknown") =
               "success"))) ++ ", Failed: " ++
           toString ((sortStrings ["b.txt", "a.txt"]).countP
             (fun f => !decide ((((fun f => if f = "a.txt"
                 then (⟨some "success", some [], some "viking://resources/a"⟩ : AddResult)
                 else ⟨some "failed", some ["boom"], none⟩) f).status.getD "unknown") =
               "success")))]) ∧
    (∀ f, ((((fun f => if f = "a.txt"
          then (⟨some "success", some [], some "viking://resources/a"⟩ : AddResult)
          else ⟨some "failed", some ["boom"], none⟩) f).status.getD "unknown") = "success") →
      (addDirEntry (fun f => if f = "a.txt"
          then ⟨some "success", some [], some "viking://resources/a"⟩
          else ⟨some "failed", some ["boom"], none⟩) f).1 = "  ✅ " ++ f) ∧
    (∀ f, ((((fun f => if f = "a.txt"
          then (⟨some "success", some [], some "viking://resources/a"⟩ : AddResult)
          else ⟨some "failed", some ["boom"], none⟩) f).status.getD "unknown") ≠ "success") →
      (addDirEntry (fun f => if f = "a.txt"
          then ⟨some "success", some [], some "viking://resources/a"⟩
          else ⟨some "failed", some ["boom"], none⟩) f).1 =
        "  ❌ " ++ f ++ ": " ++
          (((fun f => if f = "a.txt"
              then (⟨some "success", some [], some "viking://resources/a"⟩ : AddResult)
              else ⟨some "failed", some ["boom"], none⟩) f).errors.getD
            []).headD "unknown error") ∧
    (cmd_add_dir ⟨true, none, "/home/u", fun _ => true, id⟩ false
        (fun f => if f = "a.txt" then ⟨some "success", some [], some "viking://resources/a"⟩
                  else ⟨some "failed", some ["boom"], none⟩)
        "./docs" "*.txt" "./d" ["b.txt", "a.txt"]).events.count Event.waitProcessedCall = 1 :=
  ⟨by decide, by decide,
    add_dir_counts_and_summary ⟨true, none, "/home/u", fun _ => true, id⟩
      (fun f => if f = "a.txt" then ⟨some "success", some [], some "viking://resources/a"⟩
                else ⟨some "failed", some ["boom"], none⟩)
      "./docs" "*.txt" "./d" ["b.txt", "a.txt"] (by decide) (by decide)⟩

/-- The paths submitted to `client.add_resource`, in submission order. -/
def submittedPaths (events : List Event) : List String :=
  events.filterMap fun e =>
    match e with
    | .addResourceCall p => some p
    | _ => none

/-- `submittedPaths` distributes over concatenation of traces. -/
theorem submittedPaths_append (a b : List Event) :
    submittedPaths (a ++ b) = submittedPaths a ++ submittedPaths b := by
  simp [submittedPaths, List.filterMap_append]

/-- Mapping paths to submission events and reading them back is the
identity. -/
theorem submittedPaths_map (files : List String) :
    submittedPaths (files.map Event.addResourceCall) = files := by
  induction files with
  | nil => rfl
  | cons f fs ih => simp [submittedPaths] at ih ⊢; exact ih

/-- C9: `add-dir` submits the matched files strictly sequentially in sorted
(lexicographic) order of the glob-expanded paths: the submission trace is
exactly `sorted(globMatches)`, which is ascending and a permutation of the
matches, hence deterministic for a given matched set. -/
theorem add_dir_sorted_submission (env : Env) (addRes : String → AddResult)
    (dir_path patternArg data_dir : String) (globMatches : List String)
    (hok : (get_client env data_dir false).outcome = .ok)
    (hg : globMatches ≠ []) :
    submittedPaths
        (cmd_add_dir env false addRes dir_path patternArg data_dir globMatches).events =
      sortStrings globMatches ∧
    List.Sorted (· ≤ ·)
      (submittedPaths
        (cmd_add_dir env false addRes dir_path patternArg data_dir globMatches).events) ∧
    (submittedPaths
        (cmd_add_dir env false addRes dir_path patternArg data_dir
          globMatches).events).Perm globMatches := by
  have hne : ¬ sortStrings globMatches = [] :=
    fun hh => hg ((sortStrings_eq_nil_iff globMatches).mp hh)
  have hfe : (sortStrings globMatches).isEmpty = false := by
    simp [List.isEmpty_iff, hne]
  have heq : cmd_add_dir env false addRes dir_path patternArg data_dir globMatches =
      runHandler (get_client env data_dir false)
        (addDirBody addRes (sortStrings globMatches)) := by
    unfold cmd_add_dir
    simp [hfe]
  have hsub : submittedPaths
      (cmd_add_dir env false addRes dir_path patternArg data_dir globMatches).events =
      sortStrings globMatches := by
    rw [heq, runHandler_events_of_ok _ _ hok,
      (get_client_ok_shape env data_dir false hok).2]
    simp only [addDirBody]
    rw [submittedPaths_append, submittedPaths_append, submittedPaths_append,
      submittedPaths_map]
    simp [submittedPaths]
  refine ⟨hsub, ?_, ?_⟩
  · rw [hsub]
    exact List.sorted_mergeSort' globMatches
  · rw [hsub]
    exact List.mergeSort_perm globMatches _

/-- Witness for C9 at a concrete unsorted match list. -/
theorem add_dir_sorted_submission_witness :
    (get_client ⟨true, none, "/home/u", fun _ => true, id⟩ "./d" false).outcome = .ok ∧
    (["b.md", "a.md"] : List String) ≠ [] ∧
    submittedPaths
        (cmd_add_dir ⟨true, none, "/home/u", fun _ => true, id⟩ false
          (fun _ => ⟨some "success", some [], none⟩)
          "./docs" "*.md" "./d" ["b.md", "a.md"]).events =
      sortStrings ["b.md", "a.md"] ∧
    List.Sorted (· ≤ ·)
      (submittedPaths
        (cmd_add_dir ⟨true, none, "/home/u", fun _ => true, id⟩ false
          (fun _ => ⟨some "success", some [], none⟩)
          "./docs" "*.md" "./d" ["b.md", "a.md"]).events) ∧
    (submittedPaths
        (cmd_add_dir ⟨true, none, "/home/u", fun _ => true, id⟩ false
          (fun _ => ⟨some "success", some [], none⟩)
          "./docs" "*.md" "./d" ["b.md", "a.md"]).events).Perm ["b.md", "a.md"] := by
  have h := add_dir_sorted_submission ⟨true, none, "/home/u", fun _ => true, id⟩
    (fun _ => ⟨some "success", some [], none⟩) "./docs" "*.md" "./d" ["b.md", "a.md"]
    (by decide) (by decide)
  exact ⟨by decide, by decide, h.1, h.2.1, h.2.2⟩

/-! ### C1: search previews -/

/-- The preview never exceeds 150 code points: truncation happens before
replacement and stripping, neither of which lengthens the text. -/
theorem previewChars_length (l : List Char) : (previewChars l).length ≤ 150 := by
  unfold previewChars
  rw [List.length_reverse]
  refine le_trans (List.dropWhile_sublist _).length_le ?_
  rw [List.length_reverse]
  refine le_trans (List.dropWhile_sublist _).length_le ?_
  rw [List.length_map, List.length_take]
  exact min_le_left _ _

/-- Every embedded newline was replaced by a space: the preview contains no
newline. -/
theorem previewChars_no_newline (l : List Char) : '\n' ∉ previewChars l := by
  unfold previewChars
  intro hmem
  rw [List.mem_reverse] at hmem
  have hmem2 := (List.dropWhile_sublist Char.isWhitespace).mem hmem
  rw [List.mem_reverse] at hmem2
  have hmem3 := (List.dropWhile_sublist Char.isWhitespace).mem hmem2
  obtain ⟨a, -, ha⟩ := List.mem_map.mp hmem3
  by_cases h : a = '\n'
  · rw [if_pos h] at ha
    exact absurd ha (by decide)
  · rw [if_neg h] at ha
    exact h ha

/-- Lines printed for the entry at position `k` appear in the loop output. -/
theorem searchLoop_mem (readContent : String → ReadResult) (l : List SearchResource) :
    ∀ (i k : Nat) (r : SearchResource), l[k]? = some r →
      ∀ s ∈ searchEntryLines readContent (i + k) r, s ∈ searchLoop readContent i l := by
  induction l with
  | nil =>
    intro i k r h
    simp at h
  | cons x xs ih =>
    intro i k r h s hs
    cases k with
    | zero =>
      rw [List.getElem?_cons_zero] at h
      cases h
      exact List.mem_append_left _ (by simpa using hs)
    | succ k' =>
      rw [List.getElem?_cons_succ] at h
      refine List.mem_append_right _ (ih (i + 1) k' r h s ?_)
      rw [show i + 1 + k' = i + (k' + 1) by omega]
      exact hs

/-- With a working client and a non-empty result set, `cmd_search` prints
the results header followed by the loop output. -/
theorem cmd_search_stdout_nonempty (env : Env) (o : SearchOracle)
    (query : String) (limit : Int) (data_dir : String)
    (hok : (get_client env data_dir false).outcome = .ok)
    (hne : o.resources ≠ []) :
    (cmd_search env false o query limit data_dir).stdout =
      ("🔍 Results for '" ++ query ++ "':\n") :: searchLoop o.readContent 1 o.resources := by
  rw [show cmd_search env false o query limit data_dir =
      runHandler (get_client env data_dir false) (searchBody o query limit) from rfl,
    runHandler_stdout_of_ok _ _ hok]
  simp [searchBody, List.isEmpty_iff, hne]

/-- C1: for every search result, the URI line and the score line are
printed; a read failure leaves exactly the URI line, the score line and the
trailing blank for that result — no preview line, and nothing on stderr
anywhere; and every preview is at most 150 code points with every newline
replaced by a space. -/
theorem search_preview_truncation_and_suppression (env : Env) (o : SearchOracle)
    (query : String) (limit : Int) (data_dir : String)
    (hok : (get_client env data_dir false).outcome = .ok)
    (hne : o.resources ≠ []) :
    (cmd_search env false o query limit data_dir).stderr = [] ∧
    (∀ (k : Nat) (r : SearchResource), o.resources[k]? = some r →
      ("  " ++ toString (k + 1) ++ ". " ++ r.uri) ∈
          (cmd_search env false o query limit data_dir).stdout ∧
        ("     Score: " ++ r.scoreStr) ∈
          (cmd_search env false o query limit data_dir).stdout ∧
        (o.readContent r.uri = .raises →
          searchEntryLines o.readContent (k + 1) r =
            ["  " ++ toString (k + 1) ++ ". " ++ r.uri, "     Score: " ++ r.scoreStr, ""])) ∧
    (∀ content : String,
      (previewOf content).length ≤ 150 ∧ '\n' ∉ (previewOf content).data) := by
  refine ⟨?_, ?_, ?_⟩
  · rw [show cmd_search env false o query limit data_dir =
        runHandler (get_client env data_dir false) (searchBody o query limit) from rfl,
      (runHandler_stderr_term_of_ok _ _ hok).1]
    exact (get_client_ok_shape env data_dir false hok).1
  · intro k r h
    have hmem : ∀ s ∈ searchEntryLines o.readContent (k + 1) r,
        s ∈ (cmd_search env false o query limit data_dir).stdout := by
      intro s hs
      rw [cmd_search_stdout_nonempty env o query limit data_dir hok hne]
      refine List.mem_cons_of_mem _ ?_
      refine searchLoop_mem o.readContent o.resources 1 k r h s ?_
      rw [show 1 + k = k + 1 by omega]
      exact hs
    refine ⟨hmem _ ?_, hmem _ ?_, ?_⟩
    · simp [searchEntryLines]
    · simp [searchEntryLines]
    · intro hr
      simp [searchEntryLines, hr]
  · intro content
    exact ⟨previewChars_length content.data, previewChars_no_newline content.data⟩

/-- Witness for C1: one result whose preview read raises. -/
theorem search_preview_truncation_and_suppression_witness :
    (get_client ⟨true, none, "/home/u", fun _ => true, id⟩ "./d" false).outcome = .ok ∧
    (SearchOracle.resources ⟨[⟨"viking://resources/x", "0.9123"⟩], fun _ => .raises⟩ ≠ []) ∧
    ((cmd_search ⟨true, none, "/home/u", fun _ => true, id⟩ false
        ⟨[⟨"viking://resources/x", "0.9123"⟩], fun _ => .raises⟩ "q" 5 "./d").stderr = [] ∧
    (∀ (k : Nat) (r : SearchResource),
      (SearchOracle.resources
          ⟨[⟨"viking://resources/x", "0.9123"⟩], fun _ => .raises⟩)[k]? = some r →
      ("  " ++ toString (k + 1) ++ ". " ++ r.uri) ∈
          (cmd_search ⟨true, none, "/home/u", fun _ => true, id⟩ false
            ⟨[⟨"viking://resources/x", "0.9123"⟩], fun _ => .raises⟩ "q" 5 "./d").stdout ∧
        ("     Score: " ++ r.scoreStr) ∈
          (cmd_search ⟨true, none, "/home/u", fun _ => true, id⟩ false
            ⟨[⟨"viking://resources/x", "0.9123"⟩], fun _ => .raises⟩ "q" 5 "./d").stdout ∧
        (SearchOracle.readContent
            ⟨[⟨"viking://resources/x", "0.9123"⟩], fun _ => .raises⟩ r.uri = .raises →
          searchEntryLines
              (SearchOracle.readContent
                ⟨[⟨"viking://resources/x", "0.9123"⟩], fun _ => .raises⟩) (k + 1) r =
            ["  " ++ toString (k + 1) ++ ". " ++ r.uri,
             "     Score: " ++ r.scoreStr, ""])) ∧
    (∀ content : String,
      (previewOf content).length ≤ 150 ∧ '\n' ∉ (previewOf content).data)) :=
  ⟨by decide, by decide,
    search_preview_truncation_and_suppression ⟨true, none, "/home/u", fun _ => true, id⟩
      ⟨[⟨"viking://resources/x", "0.9123"⟩], fun _ => .raises⟩ "q" 5 "./d"
      (by decide) (by decide)⟩

end Viking
